import Mathlib

/-!
ArrayView (src/inc/array_view.h)

A shallow embedding of the `experiment::ArrayView<T, Size>` class template and of the
operations declared on it, followed by theorems about the embedding.

Conventions of the embedding

* A pointer `T*` is either `nullptr` or the position of an element, counted in elements of
  type `T`; `p + k` moves `k` elements forward.
* A `size_t` is a natural number below `2 ^ w`, `w` being the width of `size_t`. The only
  `size_t` operation of the header that can wrap is the subtraction in `subview`; it is
  embedded as subtraction modulo `2 ^ w`.
* A constructor or an operation returns `Except Failure _`. `Failure.assert l` is the run-time
  `assert` of source line `l` failing, `Failure.staticAssert l` is the `static_assert` of source
  line `l` rejecting the instantiation.
* The element type `T` plays no part in any operation of the header and is not a parameter.
* In the primary template (fixed nonzero size) the body of `data()` is `return ;` (lines
  59-60): the source returns no value there. What a caller of that `data()` reads is therefore
  not fixed by the source; every definition that calls it takes that result as the parameter
  `fixed_data`, a function of the stored field, and every theorem holds for every such
  function.
-/

namespace experiment

/-- A value of type `T*`: `nullptr` or the position of an element. -/
inductive Ptr where
  | null : Ptr
  | addr (a : Nat) : Ptr
  deriving DecidableEq, Repr

/-- Pointer arithmetic `p + k`. `nullptr + 0` is `nullptr`; `nullptr + k` with `k > 0` has no
defined value in C++ and is left at `nullptr` here. -/
def Ptr.add : Ptr → Nat → Ptr
  | Ptr.null, _ => Ptr.null
  | Ptr.addr a, k => Ptr.addr (a + k)

instance : HAdd Ptr Nat Ptr := ⟨Ptr.add⟩

/-- Contextual conversion of a pointer to `bool`, as in `assert(p)`: true iff non-null. -/
def Ptr.toBool : Ptr → Bool
  | Ptr.null => false
  | Ptr.addr _ => true

/-- The ways an instantiation or a call can fail, tagged with the source line of the
`assert` / `static_assert` that fails. -/
inductive Failure where
  | assert (line : Nat) : Failure
  | staticAssert (line : Nat) : Failure
  deriving DecidableEq, Repr

deriving instance DecidableEq for Except

/-- Unsigned subtraction `a - b` on `size_t` of width `w`: the result modulo `2 ^ w`. -/
def size_t_sub (w a b : Nat) : Nat := (a + 2 ^ w - b) % 2 ^ w

namespace impl

/-- The magic constant `kArrayViewVarSize = -4711` of line 47. -/
def kArrayViewVarSize : Int := -4711

/-- The three storage layouts of `impl::ArrayViewBase<T, Size>`:
`fixed` is the primary template (lines 50-67, one field `data_`),
`zero` the specialisation for `Size == 0` (lines 70-81, no field),
`var` the specialisation for `kArrayViewVarSize` (lines 84-100, fields `data_`, `size_`). -/
inductive ArrayViewBase where
  | fixed (Size : Int) (data_ : Ptr) : ArrayViewBase
  | zero : ArrayViewBase
  | var (data_ : Ptr) (size_ : Nat) : ArrayViewBase
  deriving DecidableEq, Repr

/-- The base-class constructor `ArrayViewBase(T* data, size_t size)` selected by `Size`:
line 88 for the variable layout (`data_(size == 0 ? nullptr : data), size_(size)`),
line 73 for the zero layout (both arguments dropped), line 55 for the primary template
(`data_(data)`, `size` dropped), whose `static_assert(Size > 0)` of line 52 rejects every
other tag. -/
def ArrayViewBase.ctor (Size : Int) (data : Ptr) (size : Nat) : Except Failure ArrayViewBase :=
  if Size = kArrayViewVarSize then
    Except.ok (ArrayViewBase.var (if size = 0 then Ptr.null else data) size)
  else if Size = 0 then
    Except.ok ArrayViewBase.zero
  else if 0 < Size then
    Except.ok (ArrayViewBase.fixed Size data)
  else
    Except.error (Failure.staticAssert 52)

/-- The accessor `size()`: lines 57, 75, 90. -/
def ArrayViewBase.size : ArrayViewBase → Nat
  | ArrayViewBase.fixed Size _ => Size.toNat
  | ArrayViewBase.zero => 0
  | ArrayViewBase.var _ size_ => size_

/-- The accessor `empty()`: lines 58, 76, 91. -/
def ArrayViewBase.empty : ArrayViewBase → Bool
  | ArrayViewBase.fixed _ _ => false
  | ArrayViewBase.zero => true
  | ArrayViewBase.var _ size_ => size_ == 0

/-- The accessor `data()`: line 77 for the zero layout, line 92 for the variable layout. In
the primary template (lines 59-60) the body is `return ;`, which returns no value: the result
the caller reads is the parameter `fixed_data` applied to the stored field `data_`. -/
def ArrayViewBase.data (fixed_data : Ptr → Ptr) : ArrayViewBase → Ptr
  | ArrayViewBase.fixed _ data_ => fixed_data data_
  | ArrayViewBase.zero => Ptr.null
  | ArrayViewBase.var data_ _ => data_

/-- The predicate `fixed_size()`: lines 63, 80, 95. -/
def ArrayViewBase.fixed_size : ArrayViewBase → Bool
  | ArrayViewBase.fixed _ _ => true
  | ArrayViewBase.zero => true
  | ArrayViewBase.var _ _ => false

end impl

open impl

/-- The class `ArrayView<T, Size>` derives from `impl::ArrayViewBase<T, Size>` and adds no
field. -/
abbrev ArrayView := impl.ArrayViewBase

/-- The condition of the `assert` of line 114, `size == 0 ? nullptr : data == this->data()`.
In C++ `==` binds tighter than `?:`, so the expression is
`size == 0 ? nullptr : (data == this->data())`: for `size == 0` its value is `nullptr`, which
is `false` as a condition; otherwise it is the comparison. -/
def ArrayView.assert114 (fixed_data : Ptr → Ptr) (this : ArrayView) (data : Ptr) (size : Nat) :
    Bool :=
  if size = 0 then Ptr.null.toBool else decide (data = this.data fixed_data)

/-- The condition of the `assert` of line 115, `size == this->size()`. -/
def ArrayView.assert115 (this : ArrayView) (size : Nat) : Bool :=
  decide (size = this.size)

/-- The condition of the `assert` of line 116,
`this->size() == 0 ? !this->data() : this->data()`. -/
def ArrayView.assert116 (fixed_data : Ptr → Ptr) (this : ArrayView) : Bool :=
  if this.size = 0 then !(this.data fixed_data).toBool else (this.data fixed_data).toBool

/-- The constructor from a pointer and a length, `ArrayView(U* data, size_t size)`,
lines 111-117: the base-class constructor, then the three `assert`s in order. -/
def ArrayView.new (fixed_data : Ptr → Ptr) (Size : Int) (data : Ptr) (size : Nat) :
    Except Failure ArrayView :=
  match ArrayViewBase.ctor Size data size with
  | Except.error e => Except.error e
  | Except.ok this =>
    if !ArrayView.assert114 fixed_data this data size then Except.error (Failure.assert 114)
    else if !ArrayView.assert115 this size then Except.error (Failure.assert 115)
    else if !ArrayView.assert116 fixed_data this then Except.error (Failure.assert 116)
    else Except.ok this

/-- The constructor `ArrayView(std::nullptr_t, size_t size)`, lines 123-127: the
`static_assert` of line 125 admits the tags `0` and `kArrayViewVarSize` only; it delegates to
the pointer-and-length constructor with `static_cast<T*>(nullptr)` and then asserts
`0 == size` (line 126). -/
def ArrayView.newNullSize (fixed_data : Ptr → Ptr) (Size : Int) (size : Nat) :
    Except Failure ArrayView :=
  if Size = 0 ∨ Size = kArrayViewVarSize then
    match ArrayView.new fixed_data Size Ptr.null size with
    | Except.error e => Except.error e
    | Except.ok this => if 0 = size then Except.ok this else Except.error (Failure.assert 126)
  else Except.error (Failure.staticAssert 125)

/-- The default constructor `ArrayView() : ArrayView(nullptr, 0)`, line 121. -/
def ArrayView.newDefault (fixed_data : Ptr → Ptr) (Size : Int) : Except Failure ArrayView :=
  ArrayView.newNullSize fixed_data Size 0

/-- The constructor `ArrayView(std::nullptr_t) : ArrayView()`, line 122. -/
def ArrayView.newNull (fixed_data : Ptr → Ptr) (Size : Int) : Except Failure ArrayView :=
  ArrayView.newDefault fixed_data Size

/-- The constructor from an array `U (&array)[N]`, lines 130-134. `array` is the position of
the array's first element (the pointer the array decays to), `N` its length; the
`static_assert` of line 132 wants `Size == N` or the variable tag. -/
def ArrayView.ofArray (fixed_data : Ptr → Ptr) (Size : Int) (array : Nat) (N : Nat) :
    Except Failure ArrayView :=
  if Size = (N : Int) ∨ Size = kArrayViewVarSize then
    ArrayView.new fixed_data Size (Ptr.addr array) N
  else Except.error (Failure.staticAssert 132)

/-- The converting constructors `ArrayView(U& u) : ArrayView(u.data(), u.size())` applied to
a view `u`. For the variable tag the overload of lines 162-166 is chosen; for a fixed tag the
overload of lines 143-149, whose `static_assert(U::size() == Size)` of line 148 wants a source
with a static `size()` equal to `Size`. -/
def ArrayView.ofView (fixed_data : Ptr → Ptr) (Size : Int) (u : ArrayView) :
    Except Failure ArrayView :=
  if Size = kArrayViewVarSize then ArrayView.new fixed_data Size (u.data fixed_data) u.size
  else if u.fixed_size ∧ (u.size : Int) = Size then
    ArrayView.new fixed_data Size (u.data fixed_data) u.size
  else Except.error (Failure.staticAssert 148)

/-- The indexing operator `operator[](size_t idx)`, lines 171-175. The reference it returns is
given as the position of the element referred to, `this->data() + idx`. -/
def ArrayView.operator_index (fixed_data : Ptr → Ptr) (this : ArrayView) (idx : Nat) :
    Except Failure Ptr :=
  if !decide (idx < this.size) then Except.error (Failure.assert 172)
  else if !(this.data fixed_data).toBool then Except.error (Failure.assert 173)
  else Except.ok (this.data fixed_data + idx)

/-- The iterator `begin()`, line 176. -/
def ArrayView.begin (fixed_data : Ptr → Ptr) (this : ArrayView) : Ptr := this.data fixed_data

/-- The iterator `end()`, line 177. -/
def ArrayView.end_ (fixed_data : Ptr → Ptr) (this : ArrayView) : Ptr :=
  this.data fixed_data + this.size

/-- The iterator `cbegin()`, line 178. -/
def ArrayView.cbegin (fixed_data : Ptr → Ptr) (this : ArrayView) : Ptr := this.data fixed_data

/-- The iterator `cend()`, line 179. -/
def ArrayView.cend (fixed_data : Ptr → Ptr) (this : ArrayView) : Ptr :=
  this.data fixed_data + this.size

/-- The member `subview(size_t offset, size_t size)`, lines 181-186; `w` is the width of
`size_t`. The result type is `ArrayView<T>`, the variable-size view. -/
def ArrayView.subview (fixed_data : Ptr → Ptr) (w : Nat) (this : ArrayView)
    (offset size : Nat) : Except Failure ArrayView :=
  if offset < this.size then
    ArrayView.new fixed_data kArrayViewVarSize (this.data fixed_data + offset)
      (min size (size_t_sub w this.size offset))
  else ArrayView.newDefault fixed_data kArrayViewVarSize

/-- The member `subview(size_t offset)`, lines 187-189. -/
def ArrayView.subview1 (fixed_data : Ptr → Ptr) (w : Nat) (this : ArrayView) (offset : Nat) :
    Except Failure ArrayView :=
  ArrayView.subview fixed_data w this offset this.size

/-- The comparison `operator==`, lines 194-197. -/
def operator_eq (fixed_data : Ptr → Ptr) (a b : ArrayView) : Bool :=
  decide (a.data fixed_data = b.data fixed_data) && decide (a.size = b.size)

/-- The comparison `operator!=`, lines 198-201. -/
def operator_ne (fixed_data : Ptr → Ptr) (a b : ArrayView) : Bool :=
  !operator_eq fixed_data a b

/-- The helper `MakeArrayView(T* data, size_t size)`, lines 210-213. -/
def MakeArrayView (fixed_data : Ptr → Ptr) (data : Ptr) (size : Nat) :
    Except Failure ArrayView :=
  ArrayView.new fixed_data kArrayViewVarSize data size

/-- The storage a view refers to: the element value held at each position. -/
abbrev Storage := Nat → Int

/-! ## Helper lemmas on the constructors -/

/-- A successful pointer-and-length construction returns the object the base-class constructor
built, and all three `assert`s of lines 114-116 held on it. -/
theorem ArrayView.new_ok_inv {fd : Ptr → Ptr} {Size : Int} {data : Ptr} {size : Nat}
    {v : ArrayView} (h : ArrayView.new fd Size data size = Except.ok v) :
    ArrayViewBase.ctor Size data size = Except.ok v ∧
      ArrayView.assert114 fd v data size = true ∧
      ArrayView.assert115 v size = true ∧ ArrayView.assert116 fd v = true := by
  unfold ArrayView.new at h
  cases hc : ArrayViewBase.ctor Size data size with
  | error e => rw [hc] at h; cases h
  | ok this =>
    rw [hc] at h
    simp only [] at h
    by_cases h1 : ArrayView.assert114 fd this data size = true
    · by_cases h2 : ArrayView.assert115 this size = true
      · by_cases h3 : ArrayView.assert116 fd this = true
        · simp [h1, h2, h3] at h
          subst h
          exact ⟨rfl, h1, h2, h3⟩
        · simp [h1, h2, h3] at h
      · simp [h1, h2] at h
    · simp [h1] at h

/-- The `assert` of line 116 is the null-iff-empty invariant on the accessors. -/
theorem ArrayView.assert116_iff (fd : Ptr → Ptr) (v : ArrayView) :
    ArrayView.assert116 fd v = true ↔ (v.data fd = Ptr.null ↔ v.size = 0) := by
  unfold ArrayView.assert116
  cases hd : v.data fd <;> by_cases hs : v.size = 0 <;> simp [hs, Ptr.toBool]

/-- A successfully constructed view has a null location iff it has length zero. -/
theorem ArrayView.new_ok_invariant {fd : Ptr → Ptr} {Size : Int} {data : Ptr} {size : Nat}
    {v : ArrayView} (h : ArrayView.new fd Size data size = Except.ok v) :
    v.data fd = Ptr.null ↔ v.size = 0 :=
  (ArrayView.assert116_iff fd v).1 (ArrayView.new_ok_inv h).2.2.2

/-- A pointer-and-length construction of a variable-size view from a non-null pointer and a
nonzero length succeeds and stores both. -/
theorem ArrayView.new_var_ok (fd : Ptr → Ptr) (a size : Nat) (hs : size ≠ 0) :
    ArrayView.new fd kArrayViewVarSize (Ptr.addr a) size =
      Except.ok (ArrayViewBase.var (Ptr.addr a) size) := by
  simp [ArrayView.new, ArrayViewBase.ctor, ArrayView.assert114, ArrayView.assert115,
    ArrayView.assert116, ArrayViewBase.data, ArrayViewBase.size, Ptr.toBool, hs]

/-- A pointer-and-length construction with length zero fails at the `assert` of line 114,
whenever the tag is one the base class accepts. -/
theorem ArrayView.new_zero_fails (fd : Ptr → Ptr) (Size : Int) (data : Ptr)
    (hS : Size = kArrayViewVarSize ∨ 0 ≤ Size) :
    ArrayView.new fd Size data 0 = Except.error (Failure.assert 114) := by
  unfold ArrayView.new ArrayViewBase.ctor
  by_cases h1 : Size = kArrayViewVarSize
  · simp [h1, ArrayView.assert114, Ptr.toBool]
  · by_cases h2 : Size = 0
    · have hk : ¬ (0 : Int) = kArrayViewVarSize := by decide
      simp [h2, hk, ArrayView.assert114, Ptr.toBool]
    · have h3 : 0 < Size := by
        rcases hS with hS | hS
        · exact absurd hS h1
        · omega
      simp [h1, h2, h3, ArrayView.assert114, Ptr.toBool]

/-- Unsigned subtraction does not wrap when the subtrahend is not larger. -/
theorem size_t_sub_eq (w a b : Nat) (hba : b ≤ a) (ha : a < 2 ^ w) :
    size_t_sub w a b = a - b := by
  unfold size_t_sub
  have h : a + 2 ^ w - b = (a - b) + 2 ^ w := by omega
  rw [h, Nat.add_mod_right]
  exact Nat.mod_eq_of_lt (by omega)

/-- The default constructor fails at the `assert` of line 114 for both tags that pass the
`static_assert` of line 125. -/
theorem ArrayView.newDefault_fails (fd : Ptr → Ptr) (Size : Int)
    (hS : Size = 0 ∨ Size = kArrayViewVarSize) :
    ArrayView.newDefault fd Size = Except.error (Failure.assert 114) := by
  have hnew : ArrayView.new fd Size Ptr.null 0 = Except.error (Failure.assert 114) :=
    ArrayView.new_zero_fails fd Size Ptr.null (by rcases hS with h | h <;> simp [h])
  simp [ArrayView.newDefault, ArrayView.newNullSize, hS, hnew]

/-- A view with a nonzero length that was successfully constructed has a non-null location. -/
theorem ArrayView.new_ok_addr {fd : Ptr → Ptr} {Size : Int} {data : Ptr} {n : Nat}
    {v : ArrayView} (h : ArrayView.new fd Size data n = Except.ok v) (hs : v.size ≠ 0) :
    ∃ a, v.data fd = Ptr.addr a := by
  have hinv := ArrayView.new_ok_invariant h
  cases hd : v.data fd with
  | null => exact absurd (hinv.1 hd) hs
  | addr a => exact ⟨a, rfl⟩

/-- With an offset that is not below `this->size()`, `subview` is the default construction,
which fails at the `assert` of line 114. -/
theorem ArrayView.subview_out_of_range (fd : Ptr → Ptr) (w : Nat) (v : ArrayView)
    (offset size : Nat) (hoff : ¬ offset < v.size) :
    ArrayView.subview fd w v offset size = Except.error (Failure.assert 114) := by
  unfold ArrayView.subview
  rw [if_neg hoff]
  exact ArrayView.newDefault_fails fd kArrayViewVarSize (Or.inr rfl)

/-- With size zero, `subview` fails at the `assert` of line 114 for every offset. -/
theorem ArrayView.subview_size_zero (fd : Ptr → Ptr) (w : Nat) (v : ArrayView)
    (offset : Nat) :
    ArrayView.subview fd w v offset 0 = Except.error (Failure.assert 114) := by
  unfold ArrayView.subview
  split
  · rw [Nat.zero_min]
    exact ArrayView.new_zero_fails fd kArrayViewVarSize _ (Or.inl rfl)
  · exact ArrayView.newDefault_fails fd kArrayViewVarSize (Or.inr rfl)

/-! ## C1 -/

/-- C1: every view obtained from a successful pointer-and-length construction
`ArrayView(data, size)`, whatever the size tag (variable, fixed nonzero, fixed zero), has
`data()` null if and only if `size() == 0`. -/
theorem C1_data_null_iff_size_zero (fd : Ptr → Ptr) (Size : Int) (data : Ptr) (size : Nat)
    (v : ArrayView) (h : ArrayView.new fd Size data size = Except.ok v) :
    v.data fd = Ptr.null ↔ v.size = 0 :=
  ArrayView.new_ok_invariant h

/-- Witness for C1: a variable-size view over five elements at position 100. -/
theorem C1_data_null_iff_size_zero_witness :
    ArrayView.new (fun _ => Ptr.null) kArrayViewVarSize (Ptr.addr 100) 5
        = Except.ok (ArrayViewBase.var (Ptr.addr 100) 5) ∧
      ((ArrayViewBase.var (Ptr.addr 100) 5).data (fun _ => Ptr.null) = Ptr.null ↔
        (ArrayViewBase.var (Ptr.addr 100) 5).size = 0) :=
  ⟨by decide,
    C1_data_null_iff_size_zero (fun _ => Ptr.null) kArrayViewVarSize (Ptr.addr 100) 5 _
      (by decide)⟩

/-! ## C2 -/

/-- C2, as stated, fails: on the successfully constructed view of five elements at position
100, `subview(2, 0)` has an in-range offset, yet it does not return a view whose `data()` is
`v.data() + 2` and whose `size()` is `min(0, 5 - 2)`. -/
theorem C2_counterexample :
    ArrayView.new (fun _ => Ptr.null) kArrayViewVarSize (Ptr.addr 100) 5
        = Except.ok (ArrayViewBase.var (Ptr.addr 100) 5) ∧
      2 < (ArrayViewBase.var (Ptr.addr 100) 5).size ∧
      ¬ ∃ r : ArrayView,
          ArrayView.subview (fun _ => Ptr.null) 64 (ArrayViewBase.var (Ptr.addr 100) 5) 2 0
              = Except.ok r ∧
            r.data (fun _ => Ptr.null)
              = (ArrayViewBase.var (Ptr.addr 100) 5).data (fun _ => Ptr.null) + 2 ∧
            r.size = min 0 ((ArrayViewBase.var (Ptr.addr 100) 5).size - 2) := by
  refine ⟨by decide, by decide, ?_⟩
  rintro ⟨r, hr, -, -⟩
  rw [ArrayView.subview_size_zero] at hr
  cases hr

/-- C2 (amended): for every successfully constructed view `v` (of any size tag), every
`offset < v.size()` and every `size >= 1`, `v.subview(offset, size)` returns a variable-size
view whose `data()` is `v.data() + offset` and whose `size()` is
`min(size, v.size() - offset)`. -/
theorem C2_subview_in_range (fd : Ptr → Ptr) (w : Nat) (Size : Int) (data : Ptr) (n : Nat)
    (v : ArrayView) (offset size : Nat)
    (hv : ArrayView.new fd Size data n = Except.ok v) (hw : v.size < 2 ^ w)
    (hoff : offset < v.size) (hsize : 1 ≤ size) :
    ∃ r : ArrayView, ArrayView.subview fd w v offset size = Except.ok r ∧
      r.fixed_size = false ∧ r.data fd = v.data fd + offset ∧
      r.size = min size (v.size - offset) := by
  obtain ⟨a, ha⟩ := ArrayView.new_ok_addr hv (by omega)
  have hsub : size_t_sub w v.size offset = v.size - offset :=
    size_t_sub_eq w v.size offset (by omega) hw
  have hne : min size (v.size - offset) ≠ 0 := by
    rw [Nat.min_def]; split <;> omega
  have hadd : v.data fd + offset = Ptr.addr (a + offset) := by rw [ha]; rfl
  refine ⟨ArrayViewBase.var (Ptr.addr (a + offset)) (min size (v.size - offset)), ?_, rfl, ?_, rfl⟩
  · unfold ArrayView.subview
    rw [if_pos hoff, hsub, hadd]
    exact ArrayView.new_var_ok fd (a + offset) _ hne
  · rw [hadd]; rfl

/-- Witness for C2 (amended): the view of five elements at position 100, `subview(2, 10)`,
which is the view of three elements at position 102. -/
theorem C2_subview_in_range_witness :
    ∃ r : ArrayView,
      ArrayView.subview (fun _ => Ptr.null) 64 (ArrayViewBase.var (Ptr.addr 100) 5) 2 10
          = Except.ok r ∧
        r.fixed_size = false ∧
        r.data (fun _ => Ptr.null)
          = (ArrayViewBase.var (Ptr.addr 100) 5).data (fun _ => Ptr.null) + 2 ∧
        r.size = min 10 ((ArrayViewBase.var (Ptr.addr 100) 5).size - 2) :=
  C2_subview_in_range (fun _ => Ptr.null) 64 kArrayViewVarSize (Ptr.addr 100) 5
    (ArrayViewBase.var (Ptr.addr 100) 5) 2 10 (by decide) (by decide) (by decide) (by decide)

/-! ## C3 -/

/-- C3 (the code at the failing inputs): on the successfully constructed view of five elements
at position 100, `subview(10, 1)` (offset out of range) and `subview(2, 0)` (zero length) do
not return a view: both end in the failure of the `assert` of line 114, raised by the
constructor of the view to be returned. -/
theorem C3_subview_assertion_failure (fd : Ptr → Ptr) :
    ArrayView.new fd kArrayViewVarSize (Ptr.addr 100) 5
        = Except.ok (ArrayViewBase.var (Ptr.addr 100) 5) ∧
      ArrayView.subview fd 64 (ArrayViewBase.var (Ptr.addr 100) 5) 10 1
        = Except.error (Failure.assert 114) ∧
      ArrayView.subview fd 64 (ArrayViewBase.var (Ptr.addr 100) 5) 2 0
        = Except.error (Failure.assert 114) :=
  ⟨ArrayView.new_var_ok fd 100 5 (by decide),
    ArrayView.subview_out_of_range fd 64 _ 10 1 (by decide),
    ArrayView.subview_size_zero fd 64 _ 2⟩

/-! ## C4 -/

/-- C4 (the code at the failing inputs): for every view `v`, every width `w`, every size and
every offset `v.size() + k`, which is every offset `>= v.size()`, `subview` does not return
the canonical empty view: the default constructor it calls fails at the `assert` of
line 114. -/
theorem C4_subview_out_of_range_fails (fd : Ptr → Ptr) (w : Nat) (v : ArrayView)
    (k size : Nat) :
    ArrayView.subview fd w v (v.size + k) size = Except.error (Failure.assert 114) :=
  ArrayView.subview_out_of_range fd w v (v.size + k) size (by omega)

/-! ## C5 -/

/-- C5: for every view `v` and every index `idx`, `v[idx]` fails an assertion (the bounds
check of line 172) whenever `idx >= v.size()`, so in particular at `idx == v.size()`; and when
`idx < v.size()` on a successfully constructed view it returns the reference to the element at
`v.data() + idx`. -/
theorem C5_operator_index (fd : Ptr → Ptr) (v : ArrayView) (idx : Nat) :
    (v.size ≤ idx → ArrayView.operator_index fd v idx = Except.error (Failure.assert 172)) ∧
      (∀ (Size : Int) (data : Ptr) (n : Nat), ArrayView.new fd Size data n = Except.ok v →
        idx < v.size → ArrayView.operator_index fd v idx = Except.ok (v.data fd + idx)) := by
  constructor
  · intro h
    have hlt : ¬ idx < v.size := by omega
    simp [ArrayView.operator_index, hlt]
  · intro Size data n hv hlt
    obtain ⟨a, ha⟩ := ArrayView.new_ok_addr hv (by omega)
    simp [ArrayView.operator_index, hlt, ha, Ptr.toBool]

/-- Witness for C5: on the view of five elements at position 100, index 5 fails the bounds
check and index 2 refers to position 102. -/
theorem C5_operator_index_witness :
    ArrayView.operator_index (fun _ => Ptr.null) (ArrayViewBase.var (Ptr.addr 100) 5) 5
        = Except.error (Failure.assert 172) ∧
      ArrayView.operator_index (fun _ => Ptr.null) (ArrayViewBase.var (Ptr.addr 100) 5) 2
        = Except.ok ((ArrayViewBase.var (Ptr.addr 100) 5).data (fun _ => Ptr.null) + 2) :=
  ⟨(C5_operator_index (fun _ => Ptr.null) (ArrayViewBase.var (Ptr.addr 100) 5) 5).1
      (by decide),
    (C5_operator_index (fun _ => Ptr.null) (ArrayViewBase.var (Ptr.addr 100) 5) 2).2
      kArrayViewVarSize (Ptr.addr 100) 5 (by decide) (by decide)⟩

/-! ## C6 -/

/-- C6: for any two views `a` and `b` (of any size tags), `a == b` holds if and only if
`a.data() == b.data()` and `a.size() == b.size()`; the comparison takes no storage contents
into account, and two views of the same length over different positions `pa`, `pb` of a
storage `mem` that holds identical contents at both are not equal. -/
theorem C6_operator_eq (fd : Ptr → Ptr) (a b : ArrayView) :
    (operator_eq fd a b = true ↔ a.data fd = b.data fd ∧ a.size = b.size) ∧
      (∀ (mem : Storage) (pa pb : Nat), a.data fd = Ptr.addr pa → b.data fd = Ptr.addr pb →
        pa ≠ pb → a.size = b.size → (∀ i, i < a.size → mem (pa + i) = mem (pb + i)) →
        operator_eq fd a b = false) := by
  constructor
  · simp [operator_eq]
  · intro mem pa pb ha hb hne _ _
    simp [operator_eq, ha, hb, hne]

/-- Witness for C6: a variable-size view of three elements compared with itself, and with the
variable-size view of three elements at another position of an all-zero storage. -/
theorem C6_operator_eq_witness :
    operator_eq (fun _ => Ptr.null) (ArrayViewBase.var (Ptr.addr 100) 3)
        (ArrayViewBase.var (Ptr.addr 100) 3) = true ∧
      operator_eq (fun _ => Ptr.null) (ArrayViewBase.var (Ptr.addr 100) 3)
        (ArrayViewBase.var (Ptr.addr 200) 3) = false :=
  ⟨(C6_operator_eq (fun _ => Ptr.null) (ArrayViewBase.var (Ptr.addr 100) 3)
      (ArrayViewBase.var (Ptr.addr 100) 3)).1.2 ⟨rfl, rfl⟩,
    (C6_operator_eq (fun _ => Ptr.null) (ArrayViewBase.var (Ptr.addr 100) 3)
      (ArrayViewBase.var (Ptr.addr 200) 3)).2
      (fun _ => 0) 100 200 rfl rfl (by decide) rfl (fun _ _ => rfl)⟩

/-! ## C7 -/

/-- C7 (the code at the failing inputs): with the variable tag and with the fixed-zero tag,
each of `ArrayView()`, `ArrayView(nullptr)` and `ArrayView(nullptr, 0)` ends in the failure of
the `assert` of line 114 and produces no view. -/
theorem C7_null_construction_fails (fd : Ptr → Ptr) :
    ArrayView.newDefault fd kArrayViewVarSize = Except.error (Failure.assert 114) ∧
      ArrayView.newNull fd kArrayViewVarSize = Except.error (Failure.assert 114) ∧
      ArrayView.newNullSize fd kArrayViewVarSize 0 = Except.error (Failure.assert 114) ∧
      ArrayView.newDefault fd 0 = Except.error (Failure.assert 114) ∧
      ArrayView.newNull fd 0 = Except.error (Failure.assert 114) ∧
      ArrayView.newNullSize fd 0 0 = Except.error (Failure.assert 114) :=
  ⟨ArrayView.newDefault_fails fd _ (Or.inr rfl), ArrayView.newDefault_fails fd _ (Or.inr rfl),
    ArrayView.newDefault_fails fd _ (Or.inr rfl), ArrayView.newDefault_fails fd _ (Or.inl rfl),
    ArrayView.newDefault_fails fd _ (Or.inl rfl), ArrayView.newDefault_fails fd _ (Or.inl rfl)⟩

/-! ## C8 -/

/-- A pointer-and-length construction from a null pointer and a nonzero length fails an
`assert`, whenever the tag is one the base class accepts. -/
theorem ArrayView.new_null_nonzero_fails (fd : Ptr → Ptr) (Size : Int) (size : Nat)
    (hS : Size = kArrayViewVarSize ∨ 0 ≤ Size) (hs : size ≠ 0) :
    ∃ line, ArrayView.new fd Size Ptr.null size = Except.error (Failure.assert line) := by
  unfold ArrayView.new ArrayViewBase.ctor
  by_cases h1 : Size = kArrayViewVarSize
  · exact ⟨116, by simp [h1, hs, ArrayView.assert114, ArrayView.assert115,
      ArrayView.assert116, ArrayViewBase.data, ArrayViewBase.size, Ptr.toBool]⟩
  · by_cases h2 : Size = 0
    · have hk : ¬ (0 : Int) = kArrayViewVarSize := by decide
      exact ⟨115, by simp [h2, hk, hs, ArrayView.assert114, ArrayView.assert115,
        ArrayViewBase.data, ArrayViewBase.size]⟩
    · have h3 : 0 < Size := by
        rcases hS with hS | hS
        · exact absurd hS h1
        · omega
      have h4 : Size.toNat ≠ 0 := by omega
      by_cases h6 : Ptr.null = fd Ptr.null
      · by_cases h5 : size = Size.toNat
        · exact ⟨116, by simp [h1, h2, h3, hs, h4, h5, ← h6, ArrayView.assert114,
            ArrayView.assert115, ArrayView.assert116, ArrayViewBase.data, ArrayViewBase.size,
            Ptr.toBool]⟩
        · exact ⟨115, by simp [h1, h2, h3, hs, h5, ← h6, ArrayView.assert114,
            ArrayView.assert115, ArrayViewBase.data, ArrayViewBase.size]⟩
      · exact ⟨114, by simp [h1, h2, h3, hs, h6, ArrayView.assert114, ArrayViewBase.data]⟩

/-- C9: for every array of length `N >= 1`, whose first element is at position `array`,
constructing a variable-size view from the array succeeds (no assertion fails) and yields a
view whose `data()` is the position of the first element and whose `size()` is `N`. -/
theorem C9_view_of_array (fd : Ptr → Ptr) (array N : Nat) (hN : 1 ≤ N) :
    ∃ v : ArrayView, ArrayView.ofArray fd kArrayViewVarSize array N = Except.ok v ∧
      v.data fd = Ptr.addr array ∧ v.size = N := by
  refine ⟨ArrayViewBase.var (Ptr.addr array) N, ?_, rfl, rfl⟩
  unfold ArrayView.ofArray
  rw [if_pos (Or.inr rfl)]
  exact ArrayView.new_var_ok fd array N (by omega)

/-- Witness for C9: the array `{1, 2, 4, 5, 6}` of `test_array_view`, placed at position
100. -/
theorem C9_view_of_array_witness :
    ∃ v : ArrayView,
      ArrayView.ofArray (fun _ => Ptr.null) kArrayViewVarSize 100 5 = Except.ok v ∧
        v.data (fun _ => Ptr.null) = Ptr.addr 100 ∧ v.size = 5 :=
  C9_view_of_array (fun _ => Ptr.null) 100 5 (by decide)

/-! ## C10 -/

/-- For a fixed nonzero tag the base-class constructor builds the primary-template layout,
whatever the length argument. -/
theorem ArrayViewBase.ctor_fixed (N : Nat) (hN : 0 < N) (data : Ptr) (size : Nat) :
    ArrayViewBase.ctor (N : Int) data size = Except.ok (ArrayViewBase.fixed (N : Int) data) := by
  have h1 : ¬ (N : Int) = kArrayViewVarSize := by unfold kArrayViewVarSize; omega
  have h2 : ¬ (N : Int) = 0 := by omega
  have h3 : (0 : Int) < (N : Int) := by omega
  simp [ArrayViewBase.ctor, h1, h2, h3]

/-- C10: for a fixed nonzero size tag `N`, every instance reports `size() == N` and
`empty() == false`, whatever length argument it was constructed with (both for the object the
base-class constructor builds and for a successfully constructed view); and a
pointer-and-length construction whose length argument differs from `N` fails an `assert`. -/
theorem C10_fixed_size_constant (fd : Ptr → Ptr) (N : Nat) (hN : 0 < N) (data : Ptr)
    (size : Nat) :
    (∃ v : ArrayView, ArrayViewBase.ctor (N : Int) data size = Except.ok v ∧
        v.size = N ∧ v.empty = false) ∧
      (∀ v : ArrayView, ArrayView.new fd (N : Int) data size = Except.ok v →
        v.size = N ∧ v.empty = false) ∧
      (size ≠ N → ∃ line, ArrayView.new fd (N : Int) data size
        = Except.error (Failure.assert line)) := by
  have hc := ArrayViewBase.ctor_fixed N hN data size
  refine ⟨⟨_, hc, by simp [ArrayViewBase.size], rfl⟩, ?_, ?_⟩
  · intro v hv
    have h := (ArrayView.new_ok_inv hv).1
    rw [hc] at h
    cases h
    exact ⟨by simp [ArrayViewBase.size], rfl⟩
  · intro hne
    unfold ArrayView.new
    rw [hc]
    by_cases h0 : size = 0
    · exact ⟨114, by simp [h0, ArrayView.assert114, Ptr.toBool]⟩
    · by_cases h6 : data = fd data
      · exact ⟨115, by simp [h0, hne, ← h6, ArrayView.assert114, ArrayView.assert115,
          ArrayViewBase.data, ArrayViewBase.size]⟩
      · exact ⟨114, by simp [h0, h6, ArrayView.assert114, ArrayViewBase.data]⟩

/-- Witness for C10: the tag 3 with a pointer to position 7, where `data()` of the primary
template yields the stored pointer; length argument 3 gives a view of size 3 that is not
empty, length argument 4 fails an `assert`. -/
theorem C10_fixed_size_constant_witness :
    ((ArrayViewBase.fixed 3 (Ptr.addr 7)).size = 3 ∧
        (ArrayViewBase.fixed 3 (Ptr.addr 7)).empty = false) ∧
      (∃ line, ArrayView.new (fun p => p) 3 (Ptr.addr 7) 4
        = Except.error (Failure.assert line)) :=
  ⟨(C10_fixed_size_constant (fun p => p) 3 (by decide) (Ptr.addr 7) 3).2.1
      (ArrayViewBase.fixed 3 (Ptr.addr 7)) (by decide),
    (C10_fixed_size_constant (fun p => p) 3 (by decide) (Ptr.addr 7) 4).2.2 (by decide)⟩

/-! ## Helper lemmas on pointers and on `subview` -/

/-- Moving a pointer forward twice is moving it forward by the sum. -/
theorem Ptr.add_add (p : Ptr) (a b : Nat) : p + a + b = p + (a + b) := by
  cases p with
  | null => rfl
  | addr x => show Ptr.addr (x + a + b) = Ptr.addr (x + (a + b)); rw [Nat.add_assoc]

/-- A successful pointer-and-length construction stores the length it was given. -/
theorem ArrayView.new_ok_size {fd : Ptr → Ptr} {Size : Int} {data : Ptr} {size : Nat}
    {v : ArrayView} (h : ArrayView.new fd Size data size = Except.ok v) : v.size = size := by
  have h115 := (ArrayView.new_ok_inv h).2.2.1
  unfold ArrayView.assert115 at h115
  exact (of_decide_eq_true h115).symm

/-- The successful variable-size constructions are exactly those from a non-null pointer and a
nonzero length, and they store both. -/
theorem ArrayView.new_var_ok_form {fd : Ptr → Ptr} {data : Ptr} {n : Nat} {v : ArrayView}
    (h : ArrayView.new fd kArrayViewVarSize data n = Except.ok v) :
    ∃ a, data = Ptr.addr a ∧ n ≠ 0 ∧ v = ArrayViewBase.var (Ptr.addr a) n := by
  have hn : n ≠ 0 := by
    intro h0
    subst h0
    rw [ArrayView.new_zero_fails fd kArrayViewVarSize data (Or.inl rfl)] at h
    cases h
  cases data with
  | null =>
    obtain ⟨line, h1⟩ := ArrayView.new_null_nonzero_fails fd kArrayViewVarSize n (Or.inl rfl) hn
    rw [h1] at h
    cases h
  | addr a =>
    rw [ArrayView.new_var_ok fd a n hn] at h
    cases h
    exact ⟨a, rfl, hn, rfl⟩

/-- On a view whose location is the position `a`, `subview` with an in-range offset and a
nonzero size returns the variable-size view at `a + offset` of length
`min(size, this->size() - offset)`. -/
theorem ArrayView.subview_addr (fd : Ptr → Ptr) (w : Nat) (v : ArrayView) (a offset size : Nat)
    (ha : v.data fd = Ptr.addr a) (hw : v.size < 2 ^ w) (hoff : offset < v.size)
    (hsize : 1 ≤ size) :
    ArrayView.subview fd w v offset size =
      Except.ok (ArrayViewBase.var (Ptr.addr (a + offset)) (min size (v.size - offset))) := by
  have hsub : size_t_sub w v.size offset = v.size - offset :=
    size_t_sub_eq w v.size offset (by omega) hw
  have hne : min size (v.size - offset) ≠ 0 := by
    rw [Nat.min_def]; split <;> omega
  have hadd : v.data fd + offset = Ptr.addr (a + offset) := by rw [ha]; rfl
  unfold ArrayView.subview
  rw [if_pos hoff, hsub, hadd]
  exact ArrayView.new_var_ok fd (a + offset) _ hne

/-- Whenever `subview` returns a view, the offset was in range and the view has the length
`min(size, size_t_sub w this->size() offset)` and satisfies the null-iff-empty invariant. -/
theorem ArrayView.subview_ok_inv (fd : Ptr → Ptr) (w : Nat) (v : ArrayView)
    (offset size : Nat) (r : ArrayView)
    (h : ArrayView.subview fd w v offset size = Except.ok r) :
    offset < v.size ∧ r.size = min size (size_t_sub w v.size offset) ∧
      (r.data fd = Ptr.null ↔ r.size = 0) := by
  by_cases hoff : offset < v.size
  · unfold ArrayView.subview at h
    rw [if_pos hoff] at h
    exact ⟨hoff, ArrayView.new_ok_size h, ArrayView.new_ok_invariant h⟩
  · rw [ArrayView.subview_out_of_range fd w v offset size hoff] at h
    cases h

/-! ## C11 -/

/-- C11: in the fixed-zero-size variant, whatever pointer and length arguments are passed, the
object built reports `size() == 0`, `empty() == true` and `data() == nullptr`; it is one and
the same object for all arguments. -/
theorem C11_fixed_zero_state_constant (fd : Ptr → Ptr) (data : Ptr) (size : Nat) :
    ∃ v : ArrayView, ArrayViewBase.ctor 0 data size = Except.ok v ∧
      v.size = 0 ∧ v.empty = true ∧ v.data fd = Ptr.null ∧
      ∀ (data' : Ptr) (size' : Nat), ArrayViewBase.ctor 0 data' size' = Except.ok v := by
  have hk : ¬ (0 : Int) = kArrayViewVarSize := by decide
  refine ⟨ArrayViewBase.zero, ?_, rfl, rfl, rfl, ?_⟩
  · simp [ArrayViewBase.ctor, hk]
  · intro data' size'
    simp [ArrayViewBase.ctor, hk]

/-! ## C12 -/

/-- C12: for every view `v` and every offset, `v.subview(offset)` is `v.subview(offset,
v.size())`; and when `offset < v.size()`, on a successfully constructed view, it returns the
view from `offset` to the end: it starts at `v.data() + offset`, has size
`v.size() - offset`, and its `end()` is `v.end()`. -/
theorem C12_subview_to_end (fd : Ptr → Ptr) (w : Nat) (v : ArrayView) (offset : Nat) :
    ArrayView.subview1 fd w v offset = ArrayView.subview fd w v offset v.size ∧
      (∀ (Size : Int) (data : Ptr) (n : Nat), ArrayView.new fd Size data n = Except.ok v →
        v.size < 2 ^ w → offset < v.size →
        ∃ r : ArrayView, ArrayView.subview1 fd w v offset = Except.ok r ∧
          r.data fd = v.data fd + offset ∧ r.size = v.size - offset ∧
          ArrayView.end_ fd r = ArrayView.end_ fd v) := by
  refine ⟨rfl, ?_⟩
  intro Size data n hv hw hoff
  obtain ⟨a, ha⟩ := ArrayView.new_ok_addr hv (by omega)
  have hmin : min v.size (v.size - offset) = v.size - offset := by
    rw [Nat.min_def]; split <;> omega
  have hs := ArrayView.subview_addr fd w v a offset v.size ha hw hoff (by omega)
  rw [hmin] at hs
  refine ⟨_, hs, ?_, rfl, ?_⟩
  · rw [ha]; rfl
  · show Ptr.addr (a + offset) + (v.size - offset) = v.data fd + v.size
    rw [ha]
    show Ptr.addr (a + offset + (v.size - offset)) = Ptr.addr (a + v.size)
    congr 1
    omega

/-- Witness for C12: the view of five elements at position 100; `subview(2)` is the view of
three elements at position 102, ending where the whole view ends. -/
theorem C12_subview_to_end_witness :
    ∃ r : ArrayView,
      ArrayView.subview1 (fun _ => Ptr.null) 64 (ArrayViewBase.var (Ptr.addr 100) 5) 2
          = Except.ok r ∧
        r.data (fun _ => Ptr.null)
          = (ArrayViewBase.var (Ptr.addr 100) 5).data (fun _ => Ptr.null) + 2 ∧
        r.size = (ArrayViewBase.var (Ptr.addr 100) 5).size - 2 ∧
        ArrayView.end_ (fun _ => Ptr.null) r
          = ArrayView.end_ (fun _ => Ptr.null) (ArrayViewBase.var (Ptr.addr 100) 5) :=
  (C12_subview_to_end (fun _ => Ptr.null) 64 (ArrayViewBase.var (Ptr.addr 100) 5) 2).2
    kArrayViewVarSize (Ptr.addr 100) 5 (by decide) (by decide) (by decide)

/-! ## C13 -/

/-- C13: for every successfully constructed variable-size view `v`, the converting
constructor `ArrayView(U& u)` of a variable-size view applied to `v` succeeds and yields a view
with the identical `data()` and the identical `size()`, which compares equal to `v`. -/
theorem C13_convert_variable_view (fd : Ptr → Ptr) (data : Ptr) (n : Nat) (v : ArrayView)
    (hv : ArrayView.new fd kArrayViewVarSize data n = Except.ok v) :
    ∃ u : ArrayView, ArrayView.ofView fd kArrayViewVarSize v = Except.ok u ∧
      u.data fd = v.data fd ∧ u.size = v.size ∧ operator_eq fd u v = true := by
  obtain ⟨a, -, hn, rfl⟩ := ArrayView.new_var_ok_form hv
  refine ⟨ArrayViewBase.var (Ptr.addr a) n, ?_, rfl, rfl, by simp [operator_eq]⟩
  unfold ArrayView.ofView
  rw [if_pos rfl]
  exact ArrayView.new_var_ok fd a n hn

/-- Witness for C13: converting the view of five elements at position 100. -/
theorem C13_convert_variable_view_witness :
    ∃ u : ArrayView,
      ArrayView.ofView (fun _ => Ptr.null) kArrayViewVarSize
          (ArrayViewBase.var (Ptr.addr 100) 5) = Except.ok u ∧
        u.data (fun _ => Ptr.null)
          = (ArrayViewBase.var (Ptr.addr 100) 5).data (fun _ => Ptr.null) ∧
        u.size = (ArrayViewBase.var (Ptr.addr 100) 5).size ∧
        operator_eq (fun _ => Ptr.null) u (ArrayViewBase.var (Ptr.addr 100) 5) = true :=
  C13_convert_variable_view (fun _ => Ptr.null) (Ptr.addr 100) 5
    (ArrayViewBase.var (Ptr.addr 100) 5) (by decide)

/-! ## C14 -/

/-- C14: `operator==` is an equivalence relation on views of any size tags: `a == a`;
`a == b` implies `b == a`; `a == b` and `b == c` imply `a == c`. -/
theorem C14_operator_eq_equivalence (fd : Ptr → Ptr) (a b c : ArrayView) :
    operator_eq fd a a = true ∧
      (operator_eq fd a b = true → operator_eq fd b a = true) ∧
      (operator_eq fd a b = true → operator_eq fd b c = true → operator_eq fd a c = true) := by
  refine ⟨by simp [operator_eq], ?_, ?_⟩
  · intro h
    simp only [operator_eq, Bool.and_eq_true, decide_eq_true_eq] at h ⊢
    exact ⟨h.1.symm, h.2.symm⟩
  · intro h1 h2
    simp only [operator_eq, Bool.and_eq_true, decide_eq_true_eq] at h1 h2 ⊢
    exact ⟨h1.1.trans h2.1, h1.2.trans h2.2⟩

/-- Witness for C14: across size tags, the empty variable-size object and the fixed-zero
object (symmetry); and the variable-size view of three elements at position 100
(transitivity). -/
theorem C14_operator_eq_equivalence_witness :
    operator_eq (fun _ => Ptr.null) ArrayViewBase.zero (ArrayViewBase.var Ptr.null 0) = true ∧
      operator_eq (fun _ => Ptr.null) (ArrayViewBase.var (Ptr.addr 100) 3)
        (ArrayViewBase.var (Ptr.addr 100) 3) = true :=
  ⟨(C14_operator_eq_equivalence (fun _ => Ptr.null) (ArrayViewBase.var Ptr.null 0)
      ArrayViewBase.zero (ArrayViewBase.var Ptr.null 0)).2.1 (by decide),
    (C14_operator_eq_equivalence (fun _ => Ptr.null) (ArrayViewBase.var (Ptr.addr 100) 3)
      (ArrayViewBase.var (Ptr.addr 100) 3) (ArrayViewBase.var (Ptr.addr 100) 3)).2.2
      (by decide) (by decide)⟩

/-! ## C15 -/

/-- On an object built by the base-class constructor, `empty()` is `size() == 0`. -/
theorem ArrayViewBase.ctor_empty_iff {Size : Int} {data : Ptr} {n : Nat} {v : ArrayView}
    (h : ArrayViewBase.ctor Size data n = Except.ok v) : v.empty = true ↔ v.size = 0 := by
  unfold ArrayViewBase.ctor at h
  split at h
  · cases h; simp [ArrayViewBase.empty, ArrayViewBase.size]
  · split at h
    · cases h; simp [ArrayViewBase.empty, ArrayViewBase.size]
    · split at h
      · rename_i h3
        cases h
        have : Size.toNat ≠ 0 := by omega
        simp [ArrayViewBase.empty, ArrayViewBase.size, this]
      · cases h

/-- C15: for every view `v`, `begin()` is `v.data()`, `end()` is `v.data() + v.size()`,
`cbegin()` is `begin()` and `cend()` is `end()`. On every object of the class on which the
null-iff-empty invariant holds (every successfully constructed view is one), stepping from
`begin()` reaches `end()` after exactly `v.size()` steps and not before, so the range
`[begin(), end())` has exactly `v.size()` positions, and `begin() == end()` exactly when the
view is empty. -/
theorem C15_iterators (fd : Ptr → Ptr) (v : ArrayView) :
    ArrayView.begin fd v = v.data fd ∧ ArrayView.end_ fd v = v.data fd + v.size ∧
      ArrayView.cbegin fd v = ArrayView.begin fd v ∧
      ArrayView.cend fd v = ArrayView.end_ fd v ∧
      (∀ (Size : Int) (data : Ptr) (n : Nat), ArrayViewBase.ctor Size data n = Except.ok v →
        (v.data fd = Ptr.null ↔ v.size = 0) →
        (∀ i, i ≤ v.size → (ArrayView.begin fd v + i = ArrayView.end_ fd v ↔ i = v.size)) ∧
          (ArrayView.begin fd v = ArrayView.end_ fd v ↔ v.empty = true)) := by
  refine ⟨rfl, rfl, rfl, rfl, ?_⟩
  intro Size data n hc hinv
  rw [ArrayViewBase.ctor_empty_iff hc]
  unfold ArrayView.begin ArrayView.end_
  cases hd : v.data fd with
  | null =>
    have hs : v.size = 0 := hinv.1 hd
    rw [hs]
    refine ⟨fun i hi => ⟨fun _ => by omega, fun _ => rfl⟩, ⟨fun _ => rfl, fun _ => rfl⟩⟩
  | addr a =>
    have hs : v.size ≠ 0 := fun h0 => by
      have := hinv.2 h0
      rw [hd] at this
      cases this
    constructor
    · intro i _
      show Ptr.addr (a + i) = Ptr.addr (a + v.size) ↔ i = v.size
      constructor
      · intro h
        injection h with h
        omega
      · intro h
        rw [h]
    · show Ptr.addr a = Ptr.addr (a + v.size) ↔ v.size = 0
      constructor
      · intro h
        injection h with h
        omega
      · intro h
        exact absurd h hs

/-- Witness for C15: the view of five elements at position 100, where five steps from
`begin()` reach `end()`; and the empty variable-size object, on which `begin()` is `end()`. -/
theorem C15_iterators_witness :
    (ArrayView.begin (fun _ => Ptr.null) (ArrayViewBase.var (Ptr.addr 100) 5) + 5
        = ArrayView.end_ (fun _ => Ptr.null) (ArrayViewBase.var (Ptr.addr 100) 5) ↔
        5 = (ArrayViewBase.var (Ptr.addr 100) 5).size) ∧
      (ArrayView.begin (fun _ => Ptr.null) (ArrayViewBase.var Ptr.null 0)
        = ArrayView.end_ (fun _ => Ptr.null) (ArrayViewBase.var Ptr.null 0) ↔
        (ArrayViewBase.var Ptr.null 0).empty = true) :=
  ⟨((C15_iterators (fun _ => Ptr.null) (ArrayViewBase.var (Ptr.addr 100) 5)).2.2.2.2
      kArrayViewVarSize (Ptr.addr 100) 5 (by decide) (by decide)).1 5 (by decide),
    ((C15_iterators (fun _ => Ptr.null) (ArrayViewBase.var Ptr.null 0)).2.2.2.2
      kArrayViewVarSize Ptr.null 0 (by decide) (by decide)).2⟩

/-! ## C16 -/

/-- On a view whose location is the position `a`, `subview(offset)` with an in-range offset
returns the variable-size view at `a + offset` of length `this->size() - offset`. -/
theorem ArrayView.subview1_addr (fd : Ptr → Ptr) (w : Nat) (v : ArrayView) (a offset : Nat)
    (ha : v.data fd = Ptr.addr a) (hw : v.size < 2 ^ w) (hoff : offset < v.size) :
    ArrayView.subview1 fd w v offset =
      Except.ok (ArrayViewBase.var (Ptr.addr (a + offset)) (v.size - offset)) := by
  have hmin : min v.size (v.size - offset) = v.size - offset := by
    rw [Nat.min_def]; split <;> omega
  have hs := ArrayView.subview_addr fd w v a offset v.size ha hw hoff (by omega)
  rw [hmin] at hs
  exact hs

/-- C16: for every successfully constructed view `v` and all offsets `a`, `b` with
`a + b < v.size()`, `v.subview(a).subview(b)` and `v.subview(a + b)` are both returned and
compare equal: the location is `v.data() + a + b` and the length `v.size() - a - b`. -/
theorem C16_subview_composes (fd : Ptr → Ptr) (w : Nat) (Size : Int) (data : Ptr) (n : Nat)
    (v : ArrayView) (a b : Nat) (hv : ArrayView.new fd Size data n = Except.ok v)
    (hw : v.size < 2 ^ w) (hab : a + b < v.size) :
    ∃ r1 r2 r3 : ArrayView, ArrayView.subview1 fd w v a = Except.ok r1 ∧
      ArrayView.subview1 fd w r1 b = Except.ok r2 ∧
      ArrayView.subview1 fd w v (a + b) = Except.ok r3 ∧
      operator_eq fd r2 r3 = true ∧
      r2.data fd = v.data fd + a + b ∧ r3.data fd = v.data fd + a + b ∧
      r2.size = v.size - a - b ∧ r3.size = v.size - a - b := by
  obtain ⟨p, hp⟩ := ArrayView.new_ok_addr hv (by omega)
  have h1 := ArrayView.subview1_addr fd w v p a hp hw (by omega)
  have h2 := ArrayView.subview1_addr fd w (ArrayViewBase.var (Ptr.addr (p + a)) (v.size - a))
    (p + a) b rfl (show v.size - a < 2 ^ w by omega) (show b < v.size - a by omega)
  have h3 := ArrayView.subview1_addr fd w v p (a + b) hp hw hab
  have hd : v.data fd + a + b = Ptr.addr (p + a + b) := by rw [hp]; rfl
  have hpa : p + (a + b) = p + a + b := by omega
  have hsz : v.size - (a + b) = v.size - a - b := by omega
  rw [hpa, hsz] at h3
  refine ⟨_, _, _, h1, h2, h3, ?_, ?_, ?_, rfl, rfl⟩
  · simp [operator_eq, ArrayViewBase.size]
  · rw [hd]; rfl
  · rw [hd]; rfl

/-- Witness for C16: the view of five elements at position 100 with `a = 1`, `b = 2`. -/
theorem C16_subview_composes_witness :
    ∃ r1 r2 r3 : ArrayView,
      ArrayView.subview1 (fun _ => Ptr.null) 64 (ArrayViewBase.var (Ptr.addr 100) 5) 1
        = Except.ok r1 ∧
      ArrayView.subview1 (fun _ => Ptr.null) 64 r1 2 = Except.ok r2 ∧
      ArrayView.subview1 (fun _ => Ptr.null) 64 (ArrayViewBase.var (Ptr.addr 100) 5) (1 + 2)
        = Except.ok r3 ∧
      operator_eq (fun _ => Ptr.null) r2 r3 = true ∧
      r2.data (fun _ => Ptr.null)
        = (ArrayViewBase.var (Ptr.addr 100) 5).data (fun _ => Ptr.null) + 1 + 2 ∧
      r3.data (fun _ => Ptr.null)
        = (ArrayViewBase.var (Ptr.addr 100) 5).data (fun _ => Ptr.null) + 1 + 2 ∧
      r2.size = (ArrayViewBase.var (Ptr.addr 100) 5).size - 1 - 2 ∧
      r3.size = (ArrayViewBase.var (Ptr.addr 100) 5).size - 1 - 2 :=
  C16_subview_composes (fun _ => Ptr.null) 64 kArrayViewVarSize (Ptr.addr 100) 5
    (ArrayViewBase.var (Ptr.addr 100) 5) 1 2 (by decide) (by decide) (by decide)

/-! ## C17 -/

/-- C17 (the code at the failing inputs): for every view `v`, every width `w` and every
offset, in range or not, `v.subview(offset, 0)` returns no view, so none with a null location:
the constructor of the view to be returned fails at the `assert` of line 114. -/
theorem C17_subview_size_zero_fails (fd : Ptr → Ptr) (w : Nat) (v : ArrayView)
    (offset : Nat) :
    ArrayView.subview fd w v offset 0 = Except.error (Failure.assert 114) :=
  ArrayView.subview_size_zero fd w v offset

/-! ## C18 -/

/-- C18: for every successfully constructed view `v` and every `idx < v.size()`, the second
assertion of `operator[]` (line 173, `v.data()` non-null) holds and the call returns; for no
index does `operator[]` fail at line 173: the only failure of indexing is the bounds check of
line 172, and it occurs only for `idx >= v.size()`. -/
theorem C18_index_fails_only_on_bounds (fd : Ptr → Ptr) (Size : Int) (data : Ptr) (n : Nat)
    (v : ArrayView) (hv : ArrayView.new fd Size data n = Except.ok v) (idx : Nat) :
    (idx < v.size → (v.data fd).toBool = true ∧
        ∃ p, ArrayView.operator_index fd v idx = Except.ok p) ∧
      ArrayView.operator_index fd v idx ≠ Except.error (Failure.assert 173) ∧
      (∀ e, ArrayView.operator_index fd v idx = Except.error e →
        e = Failure.assert 172 ∧ v.size ≤ idx) := by
  by_cases hlt : idx < v.size
  · obtain ⟨a, ha⟩ := ArrayView.new_ok_addr hv (by omega)
    have hok : ArrayView.operator_index fd v idx = Except.ok (v.data fd + idx) := by
      simp [ArrayView.operator_index, hlt, ha, Ptr.toBool]
    refine ⟨fun _ => ⟨by rw [ha]; rfl, _, hok⟩, ?_, ?_⟩
    · rw [hok]; intro h; cases h
    · intro e he; rw [hok] at he; cases he
  · have herr : ArrayView.operator_index fd v idx = Except.error (Failure.assert 172) := by
      simp [ArrayView.operator_index, hlt]
    refine ⟨fun h => absurd h hlt, ?_, ?_⟩
    · rw [herr]; intro h; cases h
    · intro e he
      rw [herr] at he
      cases he
      exact ⟨rfl, by omega⟩

/-- Witness for C18: the view of five elements at position 100: index 2 passes the non-null
assertion and returns, index 7 fails and the failure is the bounds check. -/
theorem C18_index_fails_only_on_bounds_witness :
    (((ArrayViewBase.var (Ptr.addr 100) 5).data (fun _ => Ptr.null)).toBool = true ∧
        ∃ p, ArrayView.operator_index (fun _ => Ptr.null)
          (ArrayViewBase.var (Ptr.addr 100) 5) 2 = Except.ok p) ∧
      (Failure.assert 172 = Failure.assert 172 ∧ (ArrayViewBase.var (Ptr.addr 100) 5).size ≤ 7) :=
  ⟨(C18_index_fails_only_on_bounds (fun _ => Ptr.null) kArrayViewVarSize (Ptr.addr 100) 5
      (ArrayViewBase.var (Ptr.addr 100) 5) (by decide) 2).1 (by decide),
    (C18_index_fails_only_on_bounds (fun _ => Ptr.null) kArrayViewVarSize (Ptr.addr 100) 5
      (ArrayViewBase.var (Ptr.addr 100) 5) (by decide) 7).2.2 (Failure.assert 172)
      (by decide)⟩

/-! ## C19 -/

/-- C19, as stated, fails: on the successfully constructed view of five elements at position
100, `subview(10, 1)` returns no view whose length `len` satisfies `len <= 1` and
`10 + len <= v.size()`. -/
theorem C19_counterexample :
    ArrayView.new (fun _ => Ptr.null) kArrayViewVarSize (Ptr.addr 100) 5
        = Except.ok (ArrayViewBase.var (Ptr.addr 100) 5) ∧
      ¬ ∃ r : ArrayView,
          ArrayView.subview (fun _ => Ptr.null) 64 (ArrayViewBase.var (Ptr.addr 100) 5) 10 1
              = Except.ok r ∧
            r.size ≤ 1 ∧ 10 + r.size ≤ (ArrayViewBase.var (Ptr.addr 100) 5).size := by
  refine ⟨by decide, ?_⟩
  rintro ⟨r, -, -, h⟩
  have h5 : (ArrayViewBase.var (Ptr.addr 100) 5).size = 5 := rfl
  rw [h5] at h
  omega

/-- C19 (amended): in `subview(offset, size)` the `size_t` subtraction
`this->size() - offset` takes no part in the result when `offset >= this->size()`, and when
`offset < this->size()` it does not wrap. Consequently for every successfully constructed view
`v`, every `offset < v.size()` and every size, every view returned by
`v.subview(offset, size)` has a length that is at most `size` and at most
`v.size() - offset <= v.size()`, with `offset + length <= v.size()`; and for `size >= 1` such a
view is returned. -/
theorem C19_subview_length_bounds (fd : Ptr → Ptr) (w : Nat) (Size : Int) (data : Ptr)
    (n : Nat) (v : ArrayView) (offset size : Nat)
    (hv : ArrayView.new fd Size data n = Except.ok v) (hw : v.size < 2 ^ w) :
    (¬ offset < v.size →
        ArrayView.subview fd w v offset size = ArrayView.newDefault fd kArrayViewVarSize) ∧
      (offset < v.size →
        size_t_sub w v.size offset = v.size - offset ∧
        (∀ r : ArrayView, ArrayView.subview fd w v offset size = Except.ok r →
          r.size ≤ size ∧ r.size ≤ v.size - offset ∧ v.size - offset ≤ v.size ∧
            offset + r.size ≤ v.size) ∧
        (1 ≤ size → ∃ r : ArrayView, ArrayView.subview fd w v offset size = Except.ok r)) := by
  constructor
  · intro hoff
    unfold ArrayView.subview
    rw [if_neg hoff]
  · intro hoff
    have hsub : size_t_sub w v.size offset = v.size - offset :=
      size_t_sub_eq w v.size offset (by omega) hw
    refine ⟨hsub, ?_, ?_⟩
    · intro r hr
      have hlen := (ArrayView.subview_ok_inv fd w v offset size r hr).2.1
      rw [hsub] at hlen
      have h1 : min size (v.size - offset) ≤ size := Nat.min_le_left _ _
      have h2 : min size (v.size - offset) ≤ v.size - offset := Nat.min_le_right _ _
      rw [hlen]
      omega
    · intro hsize
      obtain ⟨a, ha⟩ := ArrayView.new_ok_addr hv (by omega)
      exact ⟨_, ArrayView.subview_addr fd w v a offset size ha hw hoff hsize⟩

/-- Witness for C19 (amended): the view of five elements at position 100. `subview(10, 1)`
is the default construction; in `subview(2, 10)` the subtraction `5 - 2` does not wrap, a view
is returned, and the view returned, of three elements at position 102, keeps the bounds. -/
theorem C19_subview_length_bounds_witness :
    ArrayView.subview (fun _ => Ptr.null) 64 (ArrayViewBase.var (Ptr.addr 100) 5) 10 1
        = ArrayView.newDefault (fun _ => Ptr.null) kArrayViewVarSize ∧
      size_t_sub 64 (ArrayViewBase.var (Ptr.addr 100) 5).size 2
        = (ArrayViewBase.var (Ptr.addr 100) 5).size - 2 ∧
      ((ArrayViewBase.var (Ptr.addr 102) 3).size ≤ 10 ∧
        (ArrayViewBase.var (Ptr.addr 102) 3).size
          ≤ (ArrayViewBase.var (Ptr.addr 100) 5).size - 2 ∧
        (ArrayViewBase.var (Ptr.addr 100) 5).size - 2
          ≤ (ArrayViewBase.var (Ptr.addr 100) 5).size ∧
        2 + (ArrayViewBase.var (Ptr.addr 102) 3).size
          ≤ (ArrayViewBase.var (Ptr.addr 100) 5).size) ∧
      (∃ r : ArrayView,
        ArrayView.subview (fun _ => Ptr.null) 64 (ArrayViewBase.var (Ptr.addr 100) 5) 2 10
          = Except.ok r) :=
  ⟨(C19_subview_length_bounds (fun _ => Ptr.null) 64 kArrayViewVarSize (Ptr.addr 100) 5
      (ArrayViewBase.var (Ptr.addr 100) 5) 10 1 (by decide) (by decide)).1 (by decide),
    ((C19_subview_length_bounds (fun _ => Ptr.null) 64 kArrayViewVarSize (Ptr.addr 100) 5
      (ArrayViewBase.var (Ptr.addr 100) 5) 2 10 (by decide) (by decide)).2 (by decide)).1,
    ((C19_subview_length_bounds (fun _ => Ptr.null) 64 kArrayViewVarSize (Ptr.addr 100) 5
      (ArrayViewBase.var (Ptr.addr 100) 5) 2 10 (by decide) (by decide)).2 (by decide)).2.1
      (ArrayViewBase.var (Ptr.addr 102) 3) (by decide),
    ((C19_subview_length_bounds (fun _ => Ptr.null) 64 kArrayViewVarSize (Ptr.addr 100) 5
      (ArrayViewBase.var (Ptr.addr 100) 5) 2 10 (by decide) (by decide)).2 (by decide)).2.2
      (by decide)⟩

end experiment
